import Mathlib

/-!
Verification of the cloudsync repository's specification claims against a
shallow embedding of its source.

Embedded source files:
* `cloudsync/tests/fixtures/mock_provider.py` — namespace `Mock`
* `cloudsync/providers/gdrive.py` — namespace `GD`
* `cloudsync/registry.py` — namespace `Reg`
* `tests/test_events.py` (its older in-file `MockProvider`) — namespace `TE`

Modelling conventions:
* Python `dict`s become association lists with dict update/delete semantics
  (`dictLookup`, `dictSet`, `dictDel`); keys are unique by construction in the
  source, which theorems assume explicitly where needed.
* Paths are component lists (`List String`); the root `"/"` is `[]`.  The base
  class `cloudsync/provider.py` (path helpers, `_verify_parent_folder_exists`)
  is not part of the given sources; those few helpers are modelled from the
  spec and marked `Modelled from the spec:` in their doc comments.
* Byte strings are `List Nat`; the md5 digest is modelled as an injection
  (claims only use digest presence and equality of digests of equal inputs).
* `str(id(obj))` object identifiers become a fresh-`Nat` counter in the state;
  `time.time()` becomes a `Nat` clock in the state, ticked once per call.
* Raised exceptions become `Except CloudErr`; operations return
  `Except CloudErr α × State` so that mutations made before a raise survive,
  exactly as in Python.
-/

/-- Error taxonomy: the cloudsync exception kinds reachable in the embedded
code, plus Python-level failure modes (`keyError`, `attributeError`) and the
out-of-fuel marker used for the possibly-nonterminating gdrive recursions. -/
inductive CloudErr where
  | fileNotFound
  | fileExists
  | tokenErr
  | disconnected
  | temporary
  | runtimeError
  | keyError
  | attributeError
  | outOfFuel
  deriving DecidableEq, Repr, Inhabited

/-- Lookup in a Python-dict association list: first (only) binding wins. -/
def dictLookup {α β : Type} [DecidableEq α] : List (α × β) → α → Option β
  | [], _ => none
  | (k, v) :: rest, key => if k = key then some v else dictLookup rest key

/-- `d[key] = val` on a Python dict: replace the binding in place if the key
is present, append it otherwise. -/
def dictSet {α β : Type} [DecidableEq α] : List (α × β) → α → β → List (α × β)
  | [], key, val => [(key, val)]
  | (k, v) :: rest, key, val =>
    if k = key then (k, val) :: rest else (k, v) :: dictSet rest key val

/-- `del d[key]` on a Python dict (keys are unique, so removing the first
binding removes the binding). -/
def dictDel {α β : Type} [DecidableEq α] : List (α × β) → α → List (α × β)
  | [], _ => []
  | (k, v) :: rest, key => if k = key then rest else (k, v) :: dictDel rest key

/-- Well-formedness of a Python dict: no duplicate keys. -/
def keysND {α β : Type} (d : List (α × β)) : Prop := (d.map Prod.fst).Nodup

theorem dictLookup_set_self {α β : Type} [DecidableEq α]
    (d : List (α × β)) (k : α) (v : β) : dictLookup (dictSet d k v) k = some v := by
  induction d with
  | nil => simp [dictSet, dictLookup]
  | cons hd tl ih =>
    by_cases h : hd.1 = k
    · simp [dictSet, dictLookup, h]
    · simpa [dictSet, dictLookup, h] using ih

theorem dictLookup_set_ne {α β : Type} [DecidableEq α]
    (d : List (α × β)) (k k' : α) (v : β) (h : k ≠ k') :
    dictLookup (dictSet d k v) k' = dictLookup d k' := by
  induction d with
  | nil => simp [dictSet, dictLookup, h]
  | cons hd tl ih =>
    by_cases hk : hd.1 = k
    · simp [dictSet, dictLookup, hk, h]
    · simp only [dictSet, hk, if_false, dictLookup]
      by_cases hk' : hd.1 = k' <;> simp [hk', ih]

theorem dictLookup_del_ne {α β : Type} [DecidableEq α]
    (d : List (α × β)) (k k' : α) (h : k ≠ k') :
    dictLookup (dictDel d k) k' = dictLookup d k' := by
  induction d with
  | nil => simp [dictDel]
  | cons hd tl ih =>
    by_cases hk : hd.1 = k
    · simp [dictDel, dictLookup, hk, h]
    · simp only [dictDel, hk, if_false, dictLookup]
      by_cases hk' : hd.1 = k' <;> simp [hk', ih]

theorem dictLookup_eq_none_of_not_mem {α β : Type} [DecidableEq α]
    (d : List (α × β)) (k : α) (h : k ∉ d.map Prod.fst) : dictLookup d k = none := by
  induction d with
  | nil => rfl
  | cons hd tl ih =>
    simp only [List.map_cons, List.mem_cons] at h
    push_neg at h
    have h1 : hd.1 ≠ k := fun he => h.1 he.symm
    simp only [dictLookup, h1, if_false]
    exact ih h.2

theorem dictLookup_del_self {α β : Type} [DecidableEq α]
    (d : List (α × β)) (k : α) (hnd : keysND d) :
    dictLookup (dictDel d k) k = none := by
  induction d with
  | nil => rfl
  | cons hd tl ih =>
    simp only [keysND, List.map_cons, List.nodup_cons] at hnd
    by_cases hk : hd.1 = k
    · simp only [dictDel, hk, if_true]
      exact dictLookup_eq_none_of_not_mem tl k (hk ▸ hnd.1)
    · simp only [dictDel, hk, if_false, dictLookup]
      exact ih hnd.2

theorem mem_keys_dictSet {α β : Type} [DecidableEq α]
    (d : List (α × β)) (k a : α) (v : β)
    (h : a ∈ (dictSet d k v).map Prod.fst) : a ∈ d.map Prod.fst ∨ a = k := by
  induction d with
  | nil =>
    simp only [dictSet, List.map_cons, List.map_nil, List.mem_singleton] at h
    exact Or.inr h
  | cons hd tl ih =>
    simp only [List.map_cons]
    by_cases hk : hd.1 = k
    · simp only [dictSet, hk, if_true, List.map_cons, List.mem_cons] at h
      rcases h with h | h
      · exact Or.inr h
      · exact Or.inl (List.mem_cons.mpr (Or.inr h))
    · simp only [dictSet, hk, if_false, List.map_cons, List.mem_cons] at h
      rcases h with h | h
      · exact Or.inl (List.mem_cons.mpr (Or.inl h))
      · rcases ih h with h2 | h2
        · exact Or.inl (List.mem_cons.mpr (Or.inr h2))
        · exact Or.inr h2

theorem keysND_set {α β : Type} [DecidableEq α]
    (d : List (α × β)) (k : α) (v : β) (hnd : keysND d) : keysND (dictSet d k v) := by
  induction d with
  | nil => simp [dictSet, keysND]
  | cons hd tl ih =>
    simp only [keysND, List.map_cons, List.nodup_cons] at hnd
    by_cases hk : hd.1 = k
    · simpa [dictSet, hk, keysND] using hnd
    · simp only [dictSet, hk, if_false, keysND, List.map_cons, List.nodup_cons]
      refine ⟨fun hm => ?_, ih hnd.2⟩
      rcases mem_keys_dictSet tl k hd.1 v hm with h2 | h2
      · exact hnd.1 h2
      · exact hk h2

theorem dictDel_sublist {α β : Type} [DecidableEq α]
    (d : List (α × β)) (k : α) : List.Sublist (dictDel d k) d := by
  induction d with
  | nil => exact List.Sublist.refl _
  | cons hd tl ih =>
    by_cases hk : hd.1 = k
    · simp only [dictDel, hk, if_true]
      exact List.sublist_cons_self hd tl
    · simpa [dictDel, hk] using List.Sublist.cons₂ hd ih

theorem keysND_del {α β : Type} [DecidableEq α]
    (d : List (α × β)) (k : α) (hnd : keysND d) : keysND (dictDel d k) := by
  exact List.Nodup.sublist (List.Sublist.map Prod.fst (dictDel_sublist d k)) hnd

theorem dictLookup_mem {α β : Type} [DecidableEq α]
    (d : List (α × β)) (k : α) (v : β) (h : dictLookup d k = some v) : (k, v) ∈ d := by
  induction d with
  | nil => simp [dictLookup] at h
  | cons hd tl ih =>
    by_cases hk : hd.1 = k
    · simp only [dictLookup, hk, if_true, Option.some.injEq] at h
      subst h
      exact (by cases hd; simp_all : (k, hd.2) = hd) ▸ List.mem_cons_self _ _
    · simp only [dictLookup, hk, if_false] at h
      exact List.mem_cons_of_mem _ (ih h)

theorem dictLookup_isSome_set {α β : Type} [DecidableEq α]
    (d : List (α × β)) (k k' : α) (v : β) (h : (dictLookup d k').isSome) :
    (dictLookup (dictSet d k v) k').isSome := by
  by_cases he : k = k'
  · subst he; simp [dictLookup_set_self]
  · rwa [dictLookup_set_ne d k k' v he]

/-- The md5 digest of `cloudsync`'s hashes, modelled as an injection on byte
strings; the claims use only presence of a digest and equality of digests of
equal inputs, so the identity injection is adequate. -/
def md5 (b : List Nat) : List Nat := b

namespace Mock

/-! Embedding of `cloudsync/tests/fixtures/mock_provider.py`. -/

/-- `MockFSObject.FILE` / `MockFSObject.DIR` (the provider's raw type tags,
strings `'mock file'` / `'mock dir'` in the source). -/
inductive MockType where
  | file
  | dir
  deriving DecidableEq, Repr, Inhabited

/-- The normalized object type (`cloudsync.types.OType`). -/
inductive OType where
  | file
  | directory
  deriving DecidableEq, Repr, Inhabited

/-- Paths are modelled as component lists; the root `"/"` is `[]` and
`"/a/b.txt"` is `["a", "b.txt"]`. -/
abbrev MPath := List String

abbrev Bytes := List Nat

/-- `MockFSObject`: `contents` is `None` for directories (and transiently for
a just-constructed file, exactly as in the Python constructor, whose
`if contents is None and type == MockFSObject.FILE` guard compares the
builtin `type` to a string and therefore never fires); `oid` models
`str(id(self))` as a fresh counter value; `exs` is the `exists` attribute. -/
structure MockFSObject where
  path : MPath
  contents : Option Bytes
  oid : Nat
  exs : Bool
  type : MockType
  mtime : Nat
  deriving DecidableEq, Repr, Inhabited

/-- `MockFSObject.otype`. -/
def MockFSObject.otype (o : MockFSObject) : OType :=
  if o.type = MockType.file then OType.file else OType.directory

/-- `MockFSObject.hash()`: `None` for directories, md5 of the contents for
files.  A file whose contents are still `None` yields `none` here, where the
Python would raise a `TypeError`; every reachable call site sets contents
before hashing, so the branch is never exercised. -/
def objHash (o : MockFSObject) : Option Bytes :=
  if o.type = MockType.dir then none else o.contents.map md5

/-- The four `MockEvent.ACTION_*` tags. -/
inductive MockAction where
  | create
  | rename
  | update
  | delete
  deriving DecidableEq, Repr, Inhabited

/-- `MockEvent`: the action, the `copy.copy` snapshot of the target object
taken at registration time, and the (unused by `serialize`) timestamp. -/
structure MockEvent where
  action : MockAction
  obj : MockFSObject
  ts : Nat
  deriving DecidableEq, Repr, Inhabited

/-- The type slot of a normalized `Event`: `_translate_event` stores a
normalized `OType`, while `walk` passes the raw `MockFSObject.type` tag
straight through, so the slot must accommodate both. -/
inductive EvType where
  | norm (t : OType)
  | raw (t : MockType)
  deriving DecidableEq, Repr, Inhabited

/-- `cloudsync.event.Event` as constructed by the mock provider. -/
structure Event where
  otype : EvType
  oid : Nat
  path : Option MPath
  hash : Option Bytes
  exs : Bool
  mtime : Nat
  deriving DecidableEq, Repr, Inhabited

/-- `OInfo` as returned by the mock provider's point lookups. -/
structure OInfo where
  otype : OType
  oid : Nat
  hash : Option Bytes
  path : MPath
  deriving DecidableEq, Repr, Inhabited

/-- The whole `MockProvider` state: the two dicts (`_fs_by_path` stores the
same object references as `_fs_by_oid`, so it is modelled as path → oid with
the object itself held in `fs_by_oid`; oids are never reused, which keeps the
indirection faithful), the event log, `_latest_event` and `_cursor` (both
start at `-1`), the fresh-oid counter, the clock, the `_recycle_oid` flag and
the sync root.  `case_sensitive` and `sep` are unused by the embedded
operations and omitted. -/
structure MockState where
  fs_by_path : List (MPath × Nat)
  fs_by_oid : List (Nat × MockFSObject)
  events : List MockEvent
  latest_event : Int
  cursor : Int
  next_oid : Nat
  clock : Nat
  recycle_oid : Bool
  sync_root : MPath
  deriving DecidableEq, Repr, Inhabited

/-- Modelled from the spec: `Provider.is_subpath` lives in
`cloudsync/provider.py`, which is not among the given sources.  Per §4.2 and
the call sites, it decides whether `p` lies under `top` (strictly, when
`strict`), returning the truthy relative part in Python; only its truth value
is consumed by the embedded code. -/
def isSubpath (top p : MPath) (strict : Bool) : Bool :=
  top.isPrefixOf p && (!strict || decide (p ≠ top))

/-- Modelled from the spec: `Provider.replace_path` (base class, not among the
given sources) rewrites the `old` prefix of `p` to `new`. -/
def replacePath (p old new : MPath) : MPath := new ++ p.drop old.length

/-- `_get_by_oid` without the no-op `_api()` call. -/
def getByOid (s : MockState) (oid : Nat) : Option MockFSObject :=
  dictLookup s.fs_by_oid oid

/-- `_get_by_path`: the path dict holds the same live objects as the oid
dict, modelled by dereferencing the stored oid. -/
def getByPath (s : MockState) (p : MPath) : Option MockFSObject :=
  (dictLookup s.fs_by_path p).bind (fun oid => dictLookup s.fs_by_oid oid)

/-- `_store_object`. -/
def storeObject (s : MockState) (o : MockFSObject) : MockState :=
  { s with fs_by_path := dictSet s.fs_by_path o.path o.oid,
           fs_by_oid := dictSet s.fs_by_oid o.oid o }

/-- `_unstore_object` (`del` on both dicts; the keys are present at every
reachable call site, so the `KeyError` branch is not modelled). -/
def unstoreObject (s : MockState) (o : MockFSObject) : MockState :=
  { s with fs_by_path := dictDel s.fs_by_path o.path,
           fs_by_oid := dictDel s.fs_by_oid o.oid }

/-- `exists_path`. -/
def exists_path (s : MockState) (p : MPath) : Bool :=
  match getByPath s p with
  | some o => o.exs
  | none => false

/-- Modelled from the spec: `Provider._verify_parent_folder_exists` (base
class, not among the given sources).  Per §4.1 (`require_parent_folder`) and
§8 ("Rename to a path whose parent does not exist on the target side fails
with `FileNotFoundError`"), an operation on a path whose parent directory
does not exist raises `FileNotFoundError`; the root is its own parent and
needs no check. -/
def verifyParentFolderExists (s : MockState) (p : MPath) : Except CloudErr Unit :=
  if p.dropLast = p then Except.ok ()
  else if exists_path s p.dropLast then Except.ok ()
  else Except.error CloudErr.fileNotFound

/-- `MockFSObject.__init__` via `str(id(self))`: allocates the object with a
fresh oid; the constructor reads the clock twice (`self.update()` and then
the direct `self.mtime = time.time()` assignment), keeping only the second
value. -/
def allocObject (s : MockState) (p : MPath) (t : MockType) : MockFSObject × MockState :=
  let o : MockFSObject :=
    { path := p, contents := none, oid := s.next_oid, exs := true, type := t,
      mtime := s.clock + 1 }
  (o, { s with next_oid := s.next_oid + 1, clock := s.clock + 2 })

/-- `_register_event`: snapshot the target into a `MockEvent` (timestamping
it), append it, then `target_object.update()` (a second clock read, bumping
the live object's mtime), then `_latest_event = len(_events) - 1`. -/
def registerEvent (s : MockState) (a : MockAction) (oid : Nat) : MockState :=
  match dictLookup s.fs_by_oid oid with
  | none => s
  | some o =>
    let ev : MockEvent := { action := a, obj := o, ts := s.clock }
    let evs := s.events ++ [ev]
    { s with events := evs,
             fs_by_oid := dictSet s.fs_by_oid oid { o with mtime := s.clock + 1 },
             clock := s.clock + 2,
             latest_event := (evs.length : Int) - 1 }

/-- The tail of `MockProvider.create` shared by its branches: set the (new or
recycled) object's contents and existence, register the create event, and
build the returned `OInfo`.  The `OInfo` is read from the object after
registration; only the mtime differs from `o'` and `OInfo` carries no mtime,
so it is read off `o'` here. -/
def createFinish (s : MockState) (oid : Nat) (content : Bytes) :
    Except CloudErr OInfo × MockState :=
  match dictLookup s.fs_by_oid oid with
  | none => (Except.error CloudErr.keyError, s)
  | some o =>
    let o' := { o with contents := some content, exs := true }
    let s1 := registerEvent { s with fs_by_oid := dictSet s.fs_by_oid oid o' }
      MockAction.create oid
    (Except.ok { otype := o'.otype, oid := o'.oid, hash := objHash o', path := o'.path }, s1)

/-- `MockProvider.create`. -/
def create (s : MockState) (p : MPath) (content : Bytes) :
    Except CloudErr OInfo × MockState :=
  match getByPath s p with
  | some o =>
    if o.exs then (Except.error CloudErr.fileExists, s)
    else
      match verifyParentFolderExists s p with
      | Except.error e => (Except.error e, s)
      | Except.ok _ =>
        if s.recycle_oid then createFinish s o.oid content
        else
          let os := allocObject s p MockType.file
          createFinish (storeObject os.2 os.1) os.1.oid content
  | none =>
    match verifyParentFolderExists s p with
    | Except.error e => (Except.error e, s)
    | Except.ok _ =>
      let os := allocObject s p MockType.file
      createFinish (storeObject os.2 os.1) os.1.oid content

/-- `MockProvider.download`: the result is the byte string written into the
sink (a directory would make the Python `file_like.write(None)` fail; no
claim downloads a directory). -/
def download (s : MockState) (oid : Nat) : Except CloudErr (Option Bytes) × MockState :=
  match dictLookup s.fs_by_oid oid with
  | none => (Except.error CloudErr.fileNotFound, s)
  | some f =>
    if f.exs then (Except.ok f.contents, s)
    else (Except.error CloudErr.fileNotFound, s)

/-- `MockProvider.delete`: deleting a missing or already-deleted oid returns
without touching anything; otherwise flip `exists` and register the event. -/
def delete (s : MockState) (oid : Nat) : Except CloudErr Unit × MockState :=
  match dictLookup s.fs_by_oid oid with
  | none => (Except.ok (), s)
  | some f =>
    if f.exs then
      let s1 := { s with fs_by_oid := dictSet s.fs_by_oid oid { f with exs := false } }
      (Except.ok (), registerEvent s1 MockAction.delete oid)
    else (Except.ok (), s)

/-- `MockProvider.listdir`: the existing direct children of an existing
directory (objects one component below it). -/
def listdirM (s : MockState) (oid : Nat) : Except CloudErr (List OInfo) :=
  match dictLookup s.fs_by_oid oid with
  | none => Except.error CloudErr.fileNotFound
  | some fo =>
    if fo.exs && (fo.type = MockType.dir : Bool) then
      Except.ok ((s.fs_by_oid.map Prod.snd).filterMap (fun o =>
        if o.exs && isSubpath fo.path o.path true
            && (o.path.length = fo.path.length + 1 : Bool)
        then some { otype := o.otype, oid := o.oid, hash := objHash o, path := o.path }
        else none))
    else Except.error CloudErr.fileNotFound

/-- `MockProvider.mkdir`. -/
def mkdirNew (s : MockState) (p : MPath) : Except CloudErr Nat × MockState :=
  let os := allocObject s p MockType.dir
  (Except.ok os.1.oid, registerEvent (storeObject os.2 os.1) MockAction.create os.1.oid)

/-- `MockProvider.mkdir`: verify the parent, then return the existing
directory's oid, raise on an existing file, or create a fresh directory. -/
def mkdir (s : MockState) (p : MPath) : Except CloudErr Nat × MockState :=
  match verifyParentFolderExists s p with
  | Except.error e => (Except.error e, s)
  | Except.ok _ =>
    match getByPath s p with
    | some f =>
      if f.exs then
        if f.type = MockType.file then (Except.error CloudErr.fileExists, s)
        else (Except.ok f.oid, s)
      else mkdirNew s p
    | none => mkdirNew s p

/-- `_rename_single_object`: unstore under the old keys, move, restore,
register the rename event. -/
def renameSingle (s : MockState) (oid : Nat) (dest : MPath) : MockState :=
  match dictLookup s.fs_by_oid oid with
  | none => s
  | some o =>
    let s1 := unstoreObject s o
    let s2 := storeObject s1 { o with path := dest }
    registerEvent s2 MockAction.rename oid

/-- The conflict-handling prefix of `MockProvider.rename`: an existing object
of another type raises `FileExistsError`; a non-empty directory target raises
`FileExistsError`; otherwise the existing target is deleted first. -/
def renameResolveConflict (s : MockState) (src : MockFSObject)
    (conflict : Option MockFSObject) : Except CloudErr Unit × MockState :=
  match conflict with
  | none => (Except.ok (), s)
  | some c =>
    if c.exs then
      if c.type ≠ src.type then (Except.error CloudErr.fileExists, s)
      else if c.type = MockType.dir then
        match listdirM s c.oid with
        | Except.error e => (Except.error e, s)
        | Except.ok entries =>
          if entries.isEmpty then delete s c.oid
          else (Except.error CloudErr.fileExists, s)
      else delete s c.oid
    else (Except.ok (), s)

/-- The tail of `MockProvider.rename` after conflict resolution: a file is
renamed directly; a directory renames every object under its old path over a
snapshot of `_fs_by_oid.values()` (the source mutates the dict it iterates,
whose CPython behaviour is not defined here; no claim exercises the directory
branch).  The source's `assert NotImplementedError()` asserts a truthy
freshly-built exception object and so always passes — a no-op. -/
def renameApply (s : MockState) (oid : Nat) (newPath : MPath) :
    Except CloudErr Unit × MockState :=
  match dictLookup s.fs_by_oid oid with
  | none => (Except.error CloudErr.keyError, s)
  | some src =>
    if src.type = MockType.file then
      (Except.ok (), registerEvent (renameSingle s oid newPath) MockAction.rename oid)
    else
      let olds := src.path
      let s1 := (s.fs_by_oid.map Prod.snd).foldl (fun st o =>
        if isSubpath olds o.path false then
          renameSingle st o.oid (replacePath o.path olds newPath)
        else st) s
      (Except.ok (), registerEvent s1 MockAction.rename oid)

/-- `MockProvider.rename`. -/
def rename (s : MockState) (oid : Nat) (newPath : MPath) :
    Except CloudErr Unit × MockState :=
  match dictLookup s.fs_by_oid oid with
  | none => (Except.error CloudErr.fileNotFound, s)
  | some src =>
    if src.exs then
      match verifyParentFolderExists s newPath with
      | Except.error e => (Except.error e, s)
      | Except.ok _ =>
        match renameResolveConflict s src (getByPath s newPath) with
        | (Except.error e, s1) => (Except.error e, s1)
        | (Except.ok _, s1) => renameApply s1 oid newPath
    else (Except.error CloudErr.fileNotFound, s)

/-- `_type_map`. -/
def typeMap : MockType → OType
  | MockType.file => OType.file
  | MockType.dir => OType.directory

/-- `_translate_event` ∘ `MockEvent.serialize`: the normalized `Event` built
from a provider event — normalized type, oid, no path, no hash, the negated
`trashed` flag, and the snapshot's mtime. -/
def translateEvent (pe : MockEvent) : Event :=
  { otype := EvType.norm (typeMap pe.obj.type), oid := pe.obj.oid, path := none,
    hash := none, exs := pe.obj.exs, mtime := pe.obj.mtime }

/-- `MockProvider.events` is a generator that advances `_cursor` and yields
one translated event per pull; `eventsPull n` models a consumer pulling at
most `n` items and then abandoning the generator. -/
def eventsPull : Nat → MockState → List Event × MockState
  | 0, s => ([], s)
  | n + 1, s =>
    if s.cursor < s.latest_event then
      let c' := s.cursor + 1
      let pe := s.events.getD c'.toNat default
      let rs := eventsPull n { s with cursor := c' }
      (translateEvent pe :: rs.1, rs.2)
    else ([], s)

/-- `MockProvider.walk` (the `since` parameter is unimplemented in the
source): yields one `Event` per stored object strictly under the sync root,
passing the raw provider type tag and the stored `exists` flag through. -/
def walk (s : MockState) : List Event :=
  (s.fs_by_oid.map Prod.snd).filterMap (fun o =>
    if isSubpath s.sync_root o.path true then
      some { otype := EvType.raw o.type, oid := o.oid, path := some o.path,
             hash := objHash o, exs := o.exs, mtime := o.mtime }
    else none)

/-- The state with no objects, as at the top of `MockProvider.__init__`. -/
def emptyState : MockState :=
  { fs_by_path := [], fs_by_oid := [], events := [], latest_event := -1,
    cursor := -1, next_oid := 0, clock := 0, recycle_oid := false, sync_root := [] }

/-- `MockProvider()` with the default arguments: make the sync root and drain
the resulting events (`list(self.events())`). -/
def initMock : MockState :=
  let s1 := (mkdir emptyState []).2
  (eventsPull s1.events.length s1).2

end Mock

namespace TE

/-! Embedding of the older in-file `MockProvider` of `tests/test_events.py`
(the part claim C2 cites): its filesystem is a single name-keyed dict. -/

/-- `MockProvider.File` of `tests/test_events.py`. -/
structure TFile where
  name : String
  contents : Mock.Bytes
  remote_id : Nat
  exs : Bool
  deriving DecidableEq, Repr

/-- `MockProvider.delete` of `tests/test_events.py` (lines 73–77): deleting a
missing or already-deleted file raises `CloudFileNotFoundError`. -/
def deleteTE (fs : List (String × TFile)) (remote : String) :
    Except CloudErr Unit × List (String × TFile) :=
  match dictLookup fs remote with
  | none => (Except.error CloudErr.fileNotFound, fs)
  | some f =>
    if f.exs then (Except.ok (), dictSet fs remote { f with exs := false })
    else (Except.error CloudErr.fileNotFound, fs)

end TE

namespace Mock

theorem createFresh_roundtrip (s : MockState) (p : MPath) (content : Bytes) :
    ∃ info s',
      createFinish (storeObject (allocObject s p MockType.file).2
          (allocObject s p MockType.file).1) (allocObject s p MockType.file).1.oid content
        = (Except.ok info, s') ∧
      info.hash = some (md5 content) ∧ info.oid = s.next_oid ∧ info.path = p ∧
      (download s' info.oid).1 = Except.ok (some content) := by
  have h1 : dictLookup (storeObject (allocObject s p MockType.file).2
      (allocObject s p MockType.file).1).fs_by_oid (allocObject s p MockType.file).1.oid
      = some (allocObject s p MockType.file).1 := by
    simp [storeObject, dictLookup_set_self]
  simp only [createFinish, h1]
  refine ⟨_, _, rfl, ?_, ?_, ?_, ?_⟩
  · simp [allocObject, objHash]
  · simp [allocObject]
  · simp [allocObject]
  · simp [registerEvent, dictLookup_set_self, download, allocObject, storeObject]

/-- Claim C1: on the mock provider, for every path whose parent directory
exists and which is not already occupied, `create(path, content)` returns an
`OInfo` carrying a present hash and the fresh oid, and downloading that oid
yields exactly `content` back. -/
theorem c1_create_download_roundtrip (s : MockState) (p : MPath) (content : Bytes)
    (hrec : s.recycle_oid = false)
    (hparent : ∃ po, getByPath s p.dropLast = some po ∧ po.exs = true ∧
      po.type = MockType.dir)
    (hocc : ∀ o, getByPath s p = some o → o.exs = false) :
    ∃ info s', create s p content = (Except.ok info, s') ∧
      info.hash = some (md5 content) ∧ info.oid = s.next_oid ∧ info.path = p ∧
      (download s' info.oid).1 = Except.ok (some content) := by
  have hex : exists_path s p.dropLast = true := by
    obtain ⟨po, h1, h2, _⟩ := hparent
    simp [exists_path, h1, h2]
  have hv : verifyParentFolderExists s p = Except.ok () := by
    unfold verifyParentFolderExists
    by_cases hr : p.dropLast = p <;> simp [hr, hex]
  cases hgp : getByPath s p with
  | none =>
    simpa only [create, hgp, hv] using createFresh_roundtrip s p content
  | some o =>
    have ho := hocc o hgp
    simpa only [create, hgp, ho, hv, Bool.false_eq_true, if_false, hrec]
      using createFresh_roundtrip s p content

/-- Witness for C1 at the concrete `test_mock_basic` scenario: a fresh mock
provider, `create("/hi.txt", b"hello")`, then download via the returned oid. -/
theorem c1_witness :
    ∃ info s', create initMock (("hi.txt") :: []) (104 :: 101 :: 108 :: 108 :: 111 :: [])
        = (Except.ok info, s') ∧
      info.hash = some (md5 (104 :: 101 :: 108 :: 108 :: 111 :: [])) ∧
      info.oid = initMock.next_oid ∧ info.path = ("hi.txt") :: [] ∧
      (download s' info.oid).1 = Except.ok (some (104 :: 101 :: 108 :: 108 :: 111 :: [])) :=
  c1_create_download_roundtrip initMock (("hi.txt") :: [])
    (104 :: 101 :: 108 :: 108 :: 111 :: []) rfl
    ⟨{ path := [], contents := none, oid := 0, exs := true, type := MockType.dir,
       mtime := 3 }, rfl, rfl, rfl⟩
    (by intro o h; exact Option.noConfusion h)

/-- Claim C2 (amended to the fixtures mock provider): deleting an oid that is
absent or already deleted is a no-op — no error, and the state (both object
dicts, the event log, the cursor) is returned entirely unchanged. -/
theorem c2_mock_delete_absent_noop (s : MockState) (oid : Nat)
    (h : ∀ o, dictLookup s.fs_by_oid oid = some o → o.exs = false) :
    delete s oid = (Except.ok (), s) := by
  unfold delete
  cases hl : dictLookup s.fs_by_oid oid with
  | none => rfl
  | some o => simp [h o hl]

/-- Witness for C2's amended claim: deleting the never-allocated oid `999` on
a fresh mock provider returns ok and the very same state. -/
theorem c2_witness : delete initMock 999 = (Except.ok (), initMock) :=
  c2_mock_delete_absent_noop initMock 999
    (fun _o h => Option.noConfusion h)

/-- Counterexample for C2 as frozen ("for every provider"): the
`tests/test_events.py` mock provider raises `CloudFileNotFoundError` when
deleting an absent name, so deletion of an absent object is not a no-op on
every provider. -/
theorem c2_counterexample :
    TE.deleteTE [] (("f.txt")) = (Except.error CloudErr.fileNotFound, []) := rfl

end Mock

namespace Mock

/-- Claim C4: renaming a file onto a path already occupied by an existing
same-type file never overwrites destructively — the mock provider deletes the
target first (via its idempotent `delete`, emitting the delete event before
the rename events) and the rename then succeeds with the source's contents
intact at the new path. -/
theorem c4_rename_over_existing_deletes_first
    (s : MockState) (oid tid : Nat) (newPath : MPath)
    (src tobj : MockFSObject)
    (hsrc : dictLookup s.fs_by_oid oid = some src)
    (hsoid : src.oid = oid) (hse : src.exs = true) (hst : src.type = MockType.file)
    (hpl : dictLookup s.fs_by_path newPath = some tid)
    (htobj : dictLookup s.fs_by_oid tid = some tobj)
    (htoid : tobj.oid = tid) (hte : tobj.exs = true) (htt : tobj.type = MockType.file)
    (hne : tid ≠ oid)
    (hparent : verifyParentFolderExists s newPath = Except.ok ()) :
    ∃ s', rename s oid newPath = (Except.ok (), s') ∧
      (∃ t', dictLookup s'.fs_by_oid tid = some t' ∧ t'.exs = false ∧
        t'.contents = tobj.contents) ∧
      dictLookup s'.fs_by_path newPath = some oid ∧
      (∃ o', dictLookup s'.fs_by_oid oid = some o' ∧ o'.path = newPath ∧
        o'.contents = src.contents ∧ o'.exs = true) ∧
      (∃ ev1 ev2 ev3, s'.events = s.events ++ [ev1, ev2, ev3] ∧
        ev1.action = MockAction.delete ∧ ev1.obj.oid = tid ∧ ev1.obj.exs = false ∧
        ev2.action = MockAction.rename ∧ ev2.obj.oid = oid ∧ ev2.obj.path = newPath ∧
        ev3.action = MockAction.rename) := by
  have hgp : getByPath s newPath = some tobj := by simp [getByPath, hpl, htobj]
  have hnst : ¬(tobj.type ≠ src.type) := by rw [htt, hst]; simp
  have hnd : ¬(tobj.type = MockType.dir) := by rw [htt]; simp
  have hne' : oid ≠ tid := Ne.symm hne
  simp only [rename, hsrc, hse, if_true, hparent, hgp, renameResolveConflict, hte,
    hnst, if_false, hnd, htoid, delete, htobj, registerEvent, dictLookup_set_self]
  simp only [renameApply, renameSingle, unstoreObject, storeObject, registerEvent,
    dictLookup_set_ne, dictLookup_set_self, dictLookup_del_ne, hsrc, hst, hsoid, hse,
    hne, hne', if_true, ne_eq, not_false_iff]
  refine ⟨_, rfl, ?_, ?_, ?_, ?_⟩
  · simp only [dictLookup_set_ne, dictLookup_del_ne, dictLookup_set_self, hne', ne_eq,
      not_false_iff]
    exact ⟨_, rfl, rfl, rfl⟩
  · simp only [dictLookup_set_self]
  · simp only [dictLookup_set_self]
    exact ⟨_, rfl, rfl, rfl, rfl⟩
  · refine ⟨MockEvent.mk MockAction.delete
        (MockFSObject.mk tobj.path tobj.contents tid false tobj.type tobj.mtime) s.clock,
      MockEvent.mk MockAction.rename
        (MockFSObject.mk newPath src.contents oid true MockType.file src.mtime)
        (s.clock + 2),
      MockEvent.mk MockAction.rename
        (MockFSObject.mk newPath src.contents oid true MockType.file (s.clock + 2 + 1))
        (s.clock + 2 + 2), ?_, rfl, rfl, rfl, rfl, rfl, rfl, rfl⟩
    simp

end Mock

namespace Mock

/-- A mock provider holding `/a.txt` (oid 1) and `/b.txt` (oid 2), the
concrete scenario for C4's witness. -/
def c4state : MockState :=
  (create (create initMock (("a.txt") :: []) (1 :: [])).2 (("b.txt") :: []) (2 :: [])).2

/-- Witness for C4: renaming `/a.txt` over the existing `/b.txt` succeeds;
the old `/b.txt` object ends up deleted and `/b.txt` now resolves to the
renamed file's oid. -/
theorem c4_witness :
    ∃ s', rename c4state 1 (("b.txt") :: []) = (Except.ok (), s') ∧
      (∃ t', dictLookup s'.fs_by_oid 2 = some t' ∧ t'.exs = false) ∧
      dictLookup s'.fs_by_path (("b.txt") :: []) = some 1 := by
  obtain ⟨s', h1, h2, h3, _h4, _h5⟩ :=
    c4_rename_over_existing_deletes_first c4state 1 2 (("b.txt") :: [])
      (MockFSObject.mk (("a.txt") :: []) (some (1 :: [])) 1 true MockType.file 7)
      (MockFSObject.mk (("b.txt") :: []) (some (2 :: [])) 2 true MockType.file 11)
      rfl rfl rfl rfl rfl rfl rfl rfl rfl (by decide) rfl
  obtain ⟨t', ht1, ht2, _⟩ := h2
  exact ⟨s', h1, ⟨t', ht1, ht2⟩, h3⟩

end Mock

namespace Mock

/-- Number of registered events the cursor has not yet passed. -/
def pendingCount (s : MockState) : Nat := (s.latest_event - s.cursor).toNat

/-- The provider maintains `_latest_event = len(_events) - 1` and
`-1 ≤ _cursor ≤ _latest_event`. -/
def evWF (s : MockState) : Prop :=
  s.latest_event = (s.events.length : Int) - 1 ∧ -1 ≤ s.cursor ∧
    s.cursor ≤ s.latest_event

/-- Pulling `n` events delivers the translations of the next
`min n pending` registered events and advances the cursor by exactly that
many — one per delivered event, not per batch. -/
theorem eventsPull_spec : ∀ (n : Nat) (s : MockState), evWF s →
    eventsPull n s
      = (((s.events.drop ((s.cursor + 1).toNat)).take n).map translateEvent,
         { s with cursor := s.cursor + (min n (pendingCount s) : Int) }) := by
  intro n
  induction n with
  | zero =>
    intro s _hwf
    simp [eventsPull]
  | succ n ih =>
    intro s hwf
    obtain ⟨hw1, hw2, hw3⟩ := hwf
    by_cases hc : s.cursor < s.latest_event
    · have hlt : (s.cursor + 1).toNat < s.events.length := by omega
      have hget : s.events.getD (s.cursor + 1).toNat default
          = s.events[(s.cursor + 1).toNat] := List.getD_eq_getElem _ _ hlt
      have hwf1 : evWF { s with cursor := s.cursor + 1 } := by
        unfold evWF
        dsimp only
        exact ⟨hw1, by omega, by omega⟩
      have hrec := ih { s with cursor := s.cursor + 1 } hwf1
      simp only [eventsPull, hc, if_true, hget, hrec]
      simp only [Prod.mk.injEq]
      refine ⟨?_, ?_⟩
      · rw [List.drop_eq_getElem_cons hlt, List.take_succ_cons, List.map_cons]
        have hidx : (s.cursor + 1 + 1).toNat = (s.cursor + 1).toNat + 1 := by omega
        rw [hidx]
      · simp only [MockState.mk.injEq, and_true, true_and]
        simp only [pendingCount]
        omega
    · have hpend : pendingCount s = 0 := by simp only [pendingCount]; omega
      have hcl : (s.cursor + 1).toNat = s.events.length := by omega
      simp only [eventsPull, hc, if_false, hpend, hcl, List.drop_length,
        List.take_nil, List.map_nil, Nat.cast_zero]
      have hmin : ((n + 1 : Nat) : Int) ⊓ 0 = 0 := by omega
      rw [hmin, add_zero]

theorem eventsPull_wf (n : Nat) (s : MockState) (h : evWF s) : evWF (eventsPull n s).2 := by
  obtain ⟨h1, h2, h3⟩ := h
  rw [eventsPull_spec n s ⟨h1, h2, h3⟩]
  unfold evWF
  dsimp only
  refine ⟨h1, by omega, ?_⟩
  simp only [pendingCount]
  omega

/-- Claim C7 (amended): the mock's `events()` generator advances the cursor
exactly one consumed event at a time — never past a change that has not been
delivered — so a consumer that pulls `k` events and abandons the generator
receives, on the next call, exactly the not-yet-delivered remainder: the two
calls together deliver every pending change once, in order, none lost. -/
theorem c7_events_redelivery (s : MockState) (k m : Nat)
    (h : evWF s) (hm : pendingCount (eventsPull k s).2 ≤ m) :
    (eventsPull k s).1 ++ (eventsPull m (eventsPull k s).2).1
      = (s.events.drop ((s.cursor + 1).toNat)).map translateEvent := by
  obtain ⟨h1, h2, h3⟩ := h
  have hwf1 := eventsPull_wf k s ⟨h1, h2, h3⟩
  have hs2 := eventsPull_spec m (eventsPull k s).2 hwf1
  have hs1 := eventsPull_spec k s ⟨h1, h2, h3⟩
  rw [hs1] at hs2 hm
  dsimp only at hs2 hm
  rw [hs1, hs2]
  dsimp only
  have hidx : (s.cursor + ((k : Int) ⊓ (pendingCount s : Int)) + 1).toNat
      = (s.cursor + 1).toNat + min k (pendingCount s) := by
    simp only [pendingCount]
    omega
  rw [hidx]
  rw [← List.drop_drop]
  have hlenl : (s.events.drop ((s.cursor + 1).toNat)).length = pendingCount s := by
    simp only [List.length_drop, pendingCount]
    omega
  have hlen2 : ((s.events.drop ((s.cursor + 1).toNat)).drop (min k (pendingCount s))).length
      ≤ m := by
    simp only [List.length_drop, pendingCount] at hm ⊢
    omega
  rw [List.take_of_length_le hlen2]
  rw [← List.map_append]
  congr 1
  rcases Nat.le_total k (pendingCount s) with hk | hk
  · rw [Nat.min_eq_left hk, List.take_append_drop]
  · have hnil : (s.events.drop ((s.cursor + 1).toNat)).drop (pendingCount s) = [] :=
      List.drop_eq_nil_of_le hlenl.le
    rw [Nat.min_eq_right hk, List.take_of_length_le (by rw [hlenl]; exact hk), hnil]
    simp


/-- Counterexample for C7 as frozen: with two pending changes, pulling a
single event already advances the cursor although the batch is not fully
consumed, so the cursor does not advance "only after a full batch has been
consumed". -/
theorem c7_counterexample :
    (eventsPull 1 c4state).2.cursor = c4state.cursor + 1 ∧
    pendingCount (eventsPull 1 c4state).2 = 1 ∧ pendingCount c4state = 2 :=
  ⟨rfl, rfl, rfl⟩

/-- Witness for C7's amended claim: on the two-pending-events state, pulling
one event and then draining re-delivers the remainder, so the two calls
together return every pending event exactly once. -/
theorem c7_witness :
    (eventsPull 1 c4state).1 ++ (eventsPull 5 (eventsPull 1 c4state).2).1
      = (c4state.events.drop ((c4state.cursor + 1).toNat)).map translateEvent :=
  c7_events_redelivery c4state 1 5 ⟨by decide, by decide, by decide⟩ (by decide)

end Mock

namespace GD

/-! Embedding of `cloudsync/providers/gdrive.py`.  The Google Drive service
itself is an external collaborator; it is modelled as a table of files with
ids, names, parent ids and an optional md5, driven exactly through the
endpoints the source invokes (`files.list` filtered by parent and name,
`files.get`, `files.create`, `files.update`).  The provider is taken as
connected; `_api` transport failures are outside the embedded claims. -/

/-- The empty string used for the name part of the root path's split. -/
def emptyName : String := ""

/-- Paths are component lists; the root `"/"` is `[]`.  The source's
`get_parent_id` also returns `None` for a falsy (empty-string) path; `"/"`
itself is truthy, so that branch has no counterpart here. -/
abbrev GPath := List String

/-- One file known to the backend. -/
structure GFile where
  fid : String
  name : String
  pids : List String
  folder : Bool
  md5 : Option String
  deriving DecidableEq, Repr

/-- The backend: its file table, the id answering `files.get(fileId='root')`,
and a counter for fresh ids. -/
structure GBackend where
  files : List GFile
  rootFid : String
  nextId : Nat
  deriving DecidableEq, Repr

/-- `GDriveProvider` state: the `_ids` OID–Path cache (a path-keyed dict),
the backend, and the `__root_id` memo. -/
structure GDriveState where
  ids : List (GPath × String)
  backend : GBackend
  rootIdMemo : Option String
  deriving DecidableEq, Repr

/-- `GDriveInfo` as far as the embedded operations read it. -/
structure GDriveInfo where
  oid : String
  hash : Option String
  path : Option GPath
  pids : List String
  name : String
  deriving DecidableEq, Repr

/-- `files.list` with query `'pid' in parents and name='n'`. -/
def apiFilesList (b : GBackend) (pid : String) (n : String) : List GFile :=
  b.files.filter (fun f => f.pids.contains pid && f.name == n)

/-- `_info_oid`: `files.get(fileId=oid)`, with the 404 caught and turned into
`None`. -/
def info_oidRaw (b : GBackend) (oid : String) : Option GDriveInfo :=
  match b.files.find? (fun f => f.fid == oid) with
  | none => none
  | some f => some { oid := oid, hash := f.md5, path := none, pids := f.pids, name := f.name }

/-- Tags for the three mutually recursive cache functions. -/
inductive RKind where
  | gpi
  | ip
  | ep

/-- Results of the three mutually recursive cache functions. -/
inductive RVal where
  | pid (o : Option String)
  | inf (o : Option GDriveInfo)
  | exb (b : Bool)
  deriving DecidableEq, Repr

/-- The mutually recursive trio `get_parent_id` / `info_path` /
`exists_path`, written as one fuel-indexed interpreter so that it is
structurally recursive (the three argument branches transcribe the three
source functions; every cross-call spends one unit of fuel, and the public
wrappers below supply enough fuel for a path of the given depth, so the
`outOfFuel` leg is never taken by them).

* `gpi` (`get_parent_id`): the root is its own parent and resolves through
  the cache alone; otherwise a missing parent raises `FileNotFoundError`,
  and a present one is read back out of the cache (`self._ids[parent]`, whose
  `KeyError` is unreachable because `exists_path` just cached it).
* `ip` (`info_path`): resolve the parent id (its raise propagates — the
  source's `try` only wraps the `files.list` call), query by parent and name,
  cache `path → id` on a hit.
* `ep` (`exists_path`): a cached path exists; otherwise ask `info_path`. -/
def resolveF : Nat → RKind → GDriveState → GPath →
    Except CloudErr RVal × GDriveState
  | 0, _, s, _ => (Except.error CloudErr.outOfFuel, s)
  | n + 1, RKind.gpi, s, p =>
    let parent := p.dropLast
    if parent = p then (Except.ok (RVal.pid (dictLookup s.ids parent)), s)
    else
      match resolveF n RKind.ep s parent with
      | (Except.error e, s1) => (Except.error e, s1)
      | (Except.ok (RVal.exb false), s1) => (Except.error CloudErr.fileNotFound, s1)
      | (Except.ok (RVal.exb true), s1) =>
        match dictLookup s1.ids parent with
        | some v => (Except.ok (RVal.pid (some v)), s1)
        | none => (Except.error CloudErr.keyError, s1)
      | (Except.ok _, s1) => (Except.error CloudErr.keyError, s1)
  | n + 1, RKind.ip, s, p =>
    match resolveF n RKind.gpi s p with
    | (Except.error e, s1) => (Except.error e, s1)
    | (Except.ok (RVal.pid pid?), s1) =>
      let nm := (p.getLast?).getD emptyName
      let res := match pid? with
        | none => []
        | some pid => apiFilesList s1.backend pid nm
      match res with
      | [] => (Except.ok (RVal.inf none), s1)
      | ent :: _ =>
        (Except.ok (RVal.inf (some (GDriveInfo.mk ent.fid ent.md5 (some p) ent.pids emptyName))),
         { s1 with ids := dictSet s1.ids p ent.fid })
    | (Except.ok _, s1) => (Except.error CloudErr.keyError, s1)
  | n + 1, RKind.ep, s, p =>
    match dictLookup s.ids p with
    | some _ => (Except.ok (RVal.exb true), s)
    | none =>
      match resolveF n RKind.ip s p with
      | (Except.error e, s1) => (Except.error e, s1)
      | (Except.ok (RVal.inf r), s1) => (Except.ok (RVal.exb r.isSome), s1)
      | (Except.ok _, s1) => (Except.error CloudErr.keyError, s1)

/-- Fuel sufficient for any chain of the three functions starting from a
path of this depth. -/
def fuelFor (p : GPath) : Nat := 3 * p.length + 3

/-- `GDriveProvider.get_parent_id`. -/
def get_parent_id (s : GDriveState) (p : GPath) :
    Except CloudErr (Option String) × GDriveState :=
  match resolveF (fuelFor p) RKind.gpi s p with
  | (Except.ok (RVal.pid o), s1) => (Except.ok o, s1)
  | (Except.error e, s1) => (Except.error e, s1)
  | (Except.ok _, s1) => (Except.error CloudErr.keyError, s1)

/-- `GDriveProvider.info_path`. -/
def info_path (s : GDriveState) (p : GPath) :
    Except CloudErr (Option GDriveInfo) × GDriveState :=
  match resolveF (fuelFor p) RKind.ip s p with
  | (Except.ok (RVal.inf o), s1) => (Except.ok o, s1)
  | (Except.error e, s1) => (Except.error e, s1)
  | (Except.ok _, s1) => (Except.error CloudErr.keyError, s1)

/-- `GDriveProvider.exists_path`. -/
def exists_path (s : GDriveState) (p : GPath) :
    Except CloudErr Bool × GDriveState :=
  match resolveF (fuelFor p) RKind.ep s p with
  | (Except.ok (RVal.exb b), s1) => (Except.ok b, s1)
  | (Except.error e, s1) => (Except.error e, s1)
  | (Except.ok _, s1) => (Except.error CloudErr.keyError, s1)

/-- The `root_id` property: memoized `files.get(fileId='root')`, which also
refreshes the cache entry for `"/"`. -/
def root_id (s : GDriveState) : String × GDriveState :=
  match s.rootIdMemo with
  | some r => (r, s)
  | none =>
    let r := s.backend.rootFid
    (r, { s with rootIdMemo := some r, ids := dictSet s.ids [] r })

/-- `files.update` as used by `rename`: 404 for an unknown id, else rewrite
the name and move the parent links (remove `removePids`, add `addPids`). -/
def apiFilesUpdate (b : GBackend) (oid : String) (newName : String)
    (addPids removePids : List String) : Except CloudErr GBackend :=
  match b.files.find? (fun f => f.fid == oid) with
  | none => Except.error CloudErr.fileNotFound
  | some _ => Except.ok { b with files := b.files.map (fun f =>
      if f.fid == oid then
        { f with name := newName,
                 pids := (f.pids.filter (fun q => !(removePids.contains q))) ++ addPids }
      else f) }

/-- One step of the cache-purge loop at the end of `rename`: for a snapshot
pair whose value is the renamed oid, pop its path and (re-)insert
`new_path → oid`. -/
def purgeStep (oid : String) (p : GPath) (d : List (GPath × String))
    (pr : GPath × String) : List (GPath × String) :=
  if pr.2 = oid then dictSet (dictDel d pr.1) p oid else d

/-- The purge loop of `rename`: iterate over a snapshot of `_ids.items()`,
popping every path bound to `oid` and inserting `new_path → oid` each time
(so an oid that was never cached gains no entry). -/
def purgeIds (d : List (GPath × String)) (oid : String) (p : GPath) :
    List (GPath × String) :=
  d.foldl (purgeStep oid p) d

/-- The string literal `'root'` compared against by `rename`. -/
def rootLit : String := "root"

/-- `GDriveProvider.rename`. -/
def renameG (s : GDriveState) (oid : String) (p : GPath) :
    Except CloudErr Unit × GDriveState :=
  match get_parent_id s p with
  | (Except.error e, s1) => (Except.error e, s1)
  | (Except.ok pid?, s1) =>
    let ar := if pid? = some rootLit then
        (fun rs : String × GDriveState => ([rs.1], rs.2)) (root_id s1)
      else (pid?.toList, s1)
    match info_oidRaw ar.2.backend oid with
    | none => (Except.error CloudErr.attributeError, ar.2)
    | some info =>
      let nm := (p.getLast?).getD emptyName
      match apiFilesUpdate ar.2.backend oid nm ar.1 info.pids with
      | Except.error e => (Except.error e, ar.2)
      | Except.ok b1 =>
        (Except.ok (), { ar.2 with backend := b1, ids := purgeIds ar.2.ids oid p })

/-- Prefix of generated backend ids. -/
def gPre : String := "g"

/-- A fresh backend id for `files.create`. -/
def gid (n : Nat) : String := String.append gPre (toString n)

/-- `GDriveProvider.mkdir`: resolve the parent, `files.create` the folder,
cache `path → id` — and then fall off the end of the function, so the Python
returns `None` in spite of the declared `-> str`. -/
def mkdirG (s : GDriveState) (p : GPath) :
    Except CloudErr (Option String) × GDriveState :=
  match get_parent_id s p with
  | (Except.error e, s1) => (Except.error e, s1)
  | (Except.ok pid?, s1) =>
    let nm := (p.getLast?).getD emptyName
    let fid := gid s1.backend.nextId
    let b1 : GBackend :=
      { files := s1.backend.files
          ++ [{ fid := fid, name := nm, pids := pid?.toList, folder := true, md5 := none }],
        rootFid := s1.backend.rootFid,
        nextId := s1.backend.nextId + 1 }
    (Except.ok none, { s1 with backend := b1, ids := dictSet s1.ids p fid })

/-- The cache scan at the top of `_path_oid`: first path bound to the oid. -/
def findValuePath (d : List (GPath × String)) (oid : String) : Option GPath :=
  match d.find? (fun pr => pr.2 == oid) with
  | some pr => some pr.1
  | none => none

/-- `GDriveProvider._path_oid`, fuel-indexed because the source recursion
(`self._path_oid(info.pids[0])`) has no cycle or depth guard: the outer
`none` means the computation did not finish within the given fuel, while
`some none` is the source's own `return None`.  The source builds the path
as `ppath + "/" + name` on strings (which can produce a doubled separator
when `ppath` is the root); the component model appends the name. -/
def pathOidF : Nat → GDriveState → String → Option (Option GPath) × GDriveState
  | 0, s, _ => (none, s)
  | n + 1, s, oid =>
    match findValuePath s.ids oid with
    | some p => (some (some p), s)
    | none =>
      match info_oidRaw s.backend oid with
      | none => (some none, s)
      | some info =>
        match info.pids with
        | [] => (some none, s)
        | p0 :: _ =>
          if info.name = emptyName then (some none, s)
          else
            match pathOidF n s p0 with
            | (none, s1) => (none, s1)
            | (some none, s1) => (some none, s1)
            | (some (some pp), s1) =>
              (some (some (pp ++ [info.name])),
               { s1 with ids := dictSet s1.ids (pp ++ [info.name]) oid })

end GD

namespace GD

/-- Backend ids and names used by the concrete gdrive scenarios. -/
def rootFidLit : String := "root"

def fidA : String := "A"

def fidB : String := "B"

def cX : String := "X"

def nameA : String := "a"

def nameB : String := "b"

/-- The cache as `__init__` leaves it: `{"/": "root"}`. -/
def rootEntry : GPath × String := ([], "root")

/-- A connected provider over a backend holding one folder `/a`; nothing
else exists, so any path under `/a/b` has no parent. -/
def c3s0 : GDriveState :=
  { ids := [rootEntry],
    backend := { files := [{ fid := "A", name := "a", pids := ["root"],
                             folder := true, md5 := none }],
                 rootFid := "root", nextId := 0 },
    rootIdMemo := none }

/-- `/a/b/c.txt`: its parent `/a/b` does not exist on `c3s0`'s backend. -/
def c3path : GPath := ["a", "b", "c.txt"]

/-- The state `get_parent_id` leaves behind when it fails on `c3path`. -/
def c3s1 : GDriveState := (get_parent_id c3s0 c3path).2

/-- A provider whose cache holds a stale entry `/a → X` while the backend
meanwhile knows the file `X` under the name `b` in the root. -/
def c5s0 : GDriveState :=
  { ids := [rootEntry, (["a"], "X")],
    backend := { files := [{ fid := "X", name := "b", pids := ["root"],
                             folder := false, md5 := some "h" }],
                 rootFid := "root", nextId := 0 },
    rootIdMemo := none }

def pa : GPath := ["a"]

def pb : GPath := ["b"]

/-- A connected provider with an empty backend and the root cached, for the
mkdir scenario. -/
def c9s0 : GDriveState :=
  { ids := [rootEntry],
    backend := { files := [], rootFid := "root", nextId := 0 },
    rootIdMemo := none }

/-- A corrupted backend whose parent links form a two-cycle: `A`'s parent is
`B` and `B`'s parent is `A`; neither chain ever reaches the root. -/
def cycS : GDriveState :=
  { ids := [rootEntry],
    backend := { files := [{ fid := "A", name := "a", pids := ["B"],
                             folder := true, md5 := none },
                           { fid := "B", name := "b", pids := ["A"],
                             folder := true, md5 := none }],
                 rootFid := "root", nextId := 0 },
    rootIdMemo := none }

/-- The continuation `_path_oid` applies to the result of its recursive call
(`ppath = self._path_oid(info.pids[0])`), split out so the cycle theorem can
unfold one recursion step at a time. -/
def pathOidCont (nm : String) (oid : String)
    (r : Option (Option GPath) × GDriveState) : Option (Option GPath) × GDriveState :=
  match r with
  | (none, s1) => (none, s1)
  | (some none, s1) => (some none, s1)
  | (some (some pp), s1) =>
    (some (some (pp ++ [nm])), { s1 with ids := dictSet s1.ids (pp ++ [nm]) oid })

/-- Claim C6: on the cyclic backend, `_path_oid` never finishes — no amount
of fuel produces an answer (the Python recursion `A → B → A → …` has no
depth bound or visited set), and the state is returned untouched.  The
sibling ascent `is_suboid` recurses through `get_parent_id` with the same
absence of any cycle guard. -/
theorem c6_path_oid_cycle_diverges :
    ∀ n : Nat, pathOidF n cycS fidA = (none, cycS) ∧ pathOidF n cycS fidB = (none, cycS) := by
  intro n
  induction n with
  | zero => exact ⟨rfl, rfl⟩
  | succ n ih =>
    constructor
    · have hstep : pathOidF (n + 1) cycS fidA
          = pathOidCont nameA fidA (pathOidF n cycS fidB) := rfl
      rw [hstep, ih.2]
      rfl
    · have hstep : pathOidF (n + 1) cycS fidB
          = pathOidCont nameB fidB (pathOidF n cycS fidA) := rfl
      rw [hstep, ih.1]
      rfl

/-- Claim C9 at the failing input: `GDriveProvider.mkdir("/a")` creates the
folder and caches its id (`gid 0`), but returns `None` rather than the oid
its `-> str` annotation promises. -/
theorem c9_gdrive_mkdir_returns_none :
    (mkdirG c9s0 pa).1 = Except.ok none ∧
    dictLookup (mkdirG c9s0 pa).2.ids pa = some (gid 0) :=
  ⟨rfl, rfl⟩

end GD

namespace GD

/-- What one call into the `get_parent_id`/`info_path`/`exists_path`
cluster preserves: the backend and the root-id memo are untouched, key
uniqueness of the cache survives, and no cached entry disappears (entries
may be added or refreshed, never removed). -/
def CachePres (s s' : GDriveState) : Prop :=
  s'.backend = s.backend ∧ s'.rootIdMemo = s.rootIdMemo ∧
  (keysND s.ids → keysND s'.ids) ∧
  ∀ k, (dictLookup s.ids k).isSome → (dictLookup s'.ids k).isSome

theorem CachePres.refl (s : GDriveState) : CachePres s s :=
  ⟨rfl, rfl, id, fun _ h => h⟩

theorem CachePres.trans {s1 s2 s3 : GDriveState}
    (h1 : CachePres s1 s2) (h2 : CachePres s2 s3) : CachePres s1 s3 :=
  ⟨h2.1.trans h1.1, h2.2.1.trans h1.2.1, fun h => h2.2.2.1 (h1.2.2.1 h),
   fun k hk => h2.2.2.2 k (h1.2.2.2 k hk)⟩

theorem CachePres.set (s : GDriveState) (k : GPath) (v : String) :
    CachePres s { s with ids := dictSet s.ids k v } :=
  ⟨rfl, rfl, fun h => keysND_set _ _ _ h, fun _k' hk' => dictLookup_isSome_set _ _ _ _ hk'⟩

/-- The cache-resolution cluster only reads the backend and only grows the
cache. -/
theorem resolveF_pres : ∀ (n : Nat) (t : RKind) (s : GDriveState) (p : GPath),
    CachePres s (resolveF n t s p).2 := by
  intro n
  induction n with
  | zero => intro t s p; exact CachePres.refl s
  | succ n ih =>
    intro t s p
    cases t with
    | gpi =>
      simp only [resolveF]
      split
      · exact CachePres.refl s
      · split <;> rename_i heq
        all_goals (have h1 := ih RKind.ep s p.dropLast; rw [heq] at h1)
        · exact h1
        · exact h1
        · split
          · exact h1
          · exact h1
        · exact h1
    | ip =>
      simp only [resolveF]
      split <;> rename_i heq
      all_goals (have h1 := ih RKind.gpi s p; rw [heq] at h1)
      · exact h1
      · split
        · exact h1
        · rename_i ent rest hres
          exact h1.trans (CachePres.set _ p ent.fid)
      · exact h1
    | ep =>
      simp only [resolveF]
      split
      · exact CachePres.refl s
      · split <;> rename_i heq
        all_goals (have h1 := ih RKind.ip s p; rw [heq] at h1)
        · exact h1
        · exact h1
        · exact h1

end GD

namespace GD

theorem get_parent_id_pres (s : GDriveState) (p : GPath) :
    CachePres s (get_parent_id s p).2 := by
  unfold get_parent_id
  split <;> rename_i heq
  all_goals (have h1 := resolveF_pres (fuelFor p) RKind.gpi s p; rw [heq] at h1; exact h1)

theorem root_id_keysND (s : GDriveState) (h : keysND s.ids) : keysND (root_id s).2.ids := by
  unfold root_id
  split
  · exact h
  · exact keysND_set _ _ _ h

/-- Invariant of the purge loop in `rename`: once every pair of the
snapshot has been processed, no path other than the new one is still bound
to the renamed oid. -/
theorem purge_fold_complete (oid : String) (p : GPath) :
    ∀ (pairs : List (GPath × String)) (d : List (GPath × String)),
      keysND d → (∀ k, k ≠ p → dictLookup d k = some oid → (k, oid) ∈ pairs) →
      ∀ k, k ≠ p → dictLookup (pairs.foldl (purgeStep oid p) d) k ≠ some oid := by
  intro pairs
  induction pairs with
  | nil =>
    intro d _hnd hmem k hk hl
    exact absurd (hmem k hk hl) (List.not_mem_nil _)
  | cons pr rest ih =>
    intro d hnd hmem k hk
    simp only [List.foldl_cons]
    by_cases hco : pr.2 = oid
    · have hstep : purgeStep oid p d pr = dictSet (dictDel d pr.1) p oid := by
        simp [purgeStep, hco]
      rw [hstep]
      refine ih (dictSet (dictDel d pr.1) p oid)
        (keysND_set _ _ _ (keysND_del _ _ hnd)) ?_ k hk
      intro k' hk' hl'
      rw [dictLookup_set_ne _ _ _ _ (Ne.symm hk')] at hl'
      by_cases hkp : k' = pr.1
      · subst hkp
        rw [dictLookup_del_self _ _ hnd] at hl'
        exact absurd hl' (by simp)
      · rw [dictLookup_del_ne _ _ _ (fun he => hkp he.symm)] at hl'
        rcases List.mem_cons.mp (hmem k' hk' hl') with he | hm
        · exact absurd (congrArg Prod.fst he) hkp
        · exact hm
    · have hstep : purgeStep oid p d pr = d := by simp [purgeStep, hco]
      rw [hstep]
      refine ih d hnd ?_ k hk
      intro k' hk' hl'
      rcases List.mem_cons.mp (hmem k' hk' hl') with he | hm
      · exact absurd (congrArg Prod.snd he).symm hco
      · exact hm

theorem purgeIds_complete (d : List (GPath × String)) (oid : String) (p : GPath)
    (hnd : keysND d) : ∀ k, k ≠ p → dictLookup (purgeIds d oid p) k ≠ some oid := by
  intro k hk
  exact purge_fold_complete oid p d d hnd
    (fun k' _hk' hl' => dictLookup_mem d k' oid hl') k hk

end GD

namespace GD

/-- Claim C5 (amended): the `_ids` cache is a path-keyed dict, so no path
ever maps to two oids, and a successful `rename(oid, new_path)` purges every
stale binding of that oid, leaving it bound to `new_path` at most; but
`info_path` can cache a second path for an oid whose old entry is stale
(see the counterexample), so the same-oid-two-paths half of the frozen claim
fails in general. -/
theorem c5_rename_purges_oid (s : GDriveState) (oid : String) (p : GPath)
    (s' : GDriveState) (hnd : keysND s.ids)
    (h : renameG s oid p = (Except.ok (), s')) :
    ∀ k, k ≠ p → dictLookup s'.ids k ≠ some oid := by
  unfold renameG at h
  split at h <;> rename_i heq
  · simp at h
  · rename_i pid? s1
    have hnd1 : keysND s1.ids := by
      have h1 := get_parent_id_pres s p
      rw [heq] at h1
      exact h1.2.2.1 hnd
    dsimp only at h
    by_cases hr : pid? = some rootLit
    · rw [if_pos hr] at h
      dsimp only at h
      have hnd2 : keysND (root_id s1).2.ids := root_id_keysND s1 hnd1
      split at h
      · simp at h
      · split at h
        · simp at h
        · simp only [Prod.mk.injEq, true_and] at h
          subst h
          intro k hk
          exact purgeIds_complete _ oid p hnd2 k hk
    · rw [if_neg hr] at h
      dsimp only at h
      split at h
      · simp at h
      · split at h
        · simp at h
        · simp only [Prod.mk.injEq, true_and] at h
          subst h
          intro k hk
          exact purgeIds_complete _ oid p hnd1 k hk

end GD

namespace GD

/-- Every arm of the `get_parent_id` wrapper passes the resolver's state
through unchanged. -/
theorem get_parent_id_state (s : GDriveState) (p : GPath) :
    (get_parent_id s p).2 = (resolveF (fuelFor p) RKind.gpi s p).2 := by
  unfold get_parent_id
  split <;> rename_i heq <;> rw [heq]

/-- Claim C3 (amended): a rename whose target parent cannot be resolved
fails with `FileNotFoundError` before touching the backend — the object
state is exactly as before, and no cache entry is lost — but the parent
probe may have added cache entries for ancestors that do exist, so the
cache is not literally unchanged (see the counterexample). -/
theorem c3_rename_missing_parent (s : GDriveState) (oid : String) (p : GPath)
    (s₁ : GDriveState)
    (h : get_parent_id s p = (Except.error CloudErr.fileNotFound, s₁)) :
    renameG s oid p = (Except.error CloudErr.fileNotFound, s₁) ∧
    s₁.backend = s.backend ∧
    (∀ k, (dictLookup s.ids k).isSome → (dictLookup s₁.ids k).isSome) := by
  have hpres := get_parent_id_pres s p
  rw [h] at hpres
  refine ⟨?_, hpres.1, hpres.2.2.2⟩
  unfold renameG
  rw [h]

/-- Counterexample for C3 as frozen: renaming onto `/a/b/c.txt` when `/a/b`
does not exist raises `FileNotFoundError`, yet the OID–Path cache is not
"exactly as it was": resolving the parent cached the existing ancestor
`/a`. -/
theorem c3_counterexample :
    (renameG c3s0 cX c3path).1 = Except.error CloudErr.fileNotFound ∧
    (renameG c3s0 cX c3path).2.ids ≠ c3s0.ids := by
  refine ⟨rfl, ?_⟩
  decide

/-- Witness for C3's amended claim on the concrete missing-parent rename. -/
theorem c3_witness :
    renameG c3s0 cX c3path = (Except.error CloudErr.fileNotFound, c3s1) ∧
    c3s1.backend = c3s0.backend := by
  obtain ⟨h1, h2, _⟩ := c3_rename_missing_parent c3s0 cX c3path c3s1 rfl
  exact ⟨h1, h2⟩

/-- Counterexample for C5 as frozen: on the stale-cache state, the
cache-mutating `info_path("/b")` leaves the same oid `X` filed under the two
distinct paths `/a` and `/b`. -/
theorem c5_counterexample :
    dictLookup (info_path c5s0 pb).2.ids pa = some cX ∧
    dictLookup (info_path c5s0 pb).2.ids pb = some cX ∧ pa ≠ pb := by
  refine ⟨rfl, rfl, ?_⟩
  decide

/-- Witness for C5's amended claim: renaming `X` to `/b` succeeds and the
stale binding `/a → X` is gone from the cache. -/
theorem c5_witness :
    (renameG c5s0 cX pb).1 = Except.ok () ∧
    dictLookup (renameG c5s0 cX pb).2.ids pa ≠ some cX := by
  refine ⟨rfl, ?_⟩
  exact c5_rename_purges_oid c5s0 cX pb (renameG c5s0 cX pb).2
    (by unfold keysND; decide) rfl pa (by decide)

end GD

namespace Mock

/-- A mock provider after `create("/x.txt", b"\x09")` followed by deleting
that file's oid: the stored object remains, flagged `exists = False`. -/
def c8state : MockState :=
  (delete (create initMock (("x.txt") :: []) (9 :: [])).2 1).2

/-- Claim C8 at the failing input: `walk` yields exactly one event here —
for the deleted object — and that event carries `exists = false` and the raw
provider type tag (`'mock file'`), not a normalized FILE/DIRECTORY type, so
"every yielded Event has exists=true, a type drawn from the normalized Event
model" fails (and `GDriveProvider.walk` has an empty `...` body). -/
theorem c8_walk_raw_and_deleted :
    (walk c8state).map (fun e => (e.otype, e.exs))
      = ((EvType.raw MockType.file, false)) :: [] := rfl

end Mock

namespace Reg

/-! Embedding of `cloudsync/registry.py`. -/

/-- A Python value as far as the registry's dispatch is concerned. -/
inductive PyVal where
  | str (s : String)
  | num (n : Int)
  deriving DecidableEq, Repr

/-- A registered provider constructor: it consumes the positional argument
list it is invoked with (what the resulting provider is does not matter to
the registry claims). -/
structure Ctor where
  run : List PyVal → PyVal

/-- Python `*mapping` unpacking: iterating a dict yields its keys, so the
star-unpacked keyword dict contributes its keys as positional arguments and
its values nowhere. -/
def starArgsOfDict (kws : List (String × PyVal)) : List PyVal :=
  kws.map (fun kv => PyVal.str kv.1)

/-- `provider_by_name`: `discover_providers` scans `sys.modules` (external
process state, not modelled); for a name already registered the
`if name not in providers` guard never reaches it, and an unknown name ends
in the `RuntimeError`. -/
def provider_by_name (providers : List (String × Ctor)) (nm : String) :
    Except CloudErr Ctor :=
  match dictLookup providers nm with
  | some c => Except.ok c
  | none => Except.error CloudErr.runtimeError

/-- `create_provider(name, *args, **kws)` — the source invokes the
constructor as `provider_by_name(name)(*args, *kws)`: the keyword dict is
star-unpacked, not double-star-unpacked. -/
def create_provider (providers : List (String × Ctor)) (nm : String)
    (args : List PyVal) (kws : List (String × PyVal)) : Except CloudErr PyVal :=
  match provider_by_name providers nm with
  | Except.error e => Except.error e
  | Except.ok c => Except.ok (c.run (args ++ starArgsOfDict kws))

/-- Claim C10: for a registered name, `create_provider` calls the registered
constructor with the keys of `kws` appended to `args` as positional
arguments; the values of `kws` are discarded — replacing them by anything
with the same keys changes nothing — and no keyword argument reaches the
constructor by name. -/
theorem c10_create_provider_star_kws (providers : List (String × Ctor))
    (nm : String) (c : Ctor) (args : List PyVal) (kws : List (String × PyVal))
    (h : dictLookup providers nm = some c) :
    create_provider providers nm args kws
      = Except.ok (c.run (args ++ kws.map (fun kv => PyVal.str kv.1))) ∧
    ∀ kws' : List (String × PyVal), kws'.map Prod.fst = kws.map Prod.fst →
      create_provider providers nm args kws' = create_provider providers nm args kws := by
  constructor
  · unfold create_provider provider_by_name
    rw [h]
    rfl
  · intro kws' hk
    unfold create_provider provider_by_name starArgsOfDict
    rw [h]
    have hmaps : kws'.map (fun kv => PyVal.str kv.1) = kws.map (fun kv => PyVal.str kv.1) := by
      have h1 : kws'.map (fun kv => PyVal.str kv.1)
          = (kws'.map Prod.fst).map PyVal.str := by
        rw [List.map_map]
        rfl
      have h2 : kws.map (fun kv => PyVal.str kv.1)
          = (kws.map Prod.fst).map PyVal.str := by
        rw [List.map_map]
        rfl
      rw [h1, h2, hk]
    rw [hmaps]

/-- The singleton registry and call used by C10's witness: the constructor
reports how many positional arguments it received. -/
def ctor0 : Ctor := Ctor.mk (fun l => PyVal.num (l.length : Int))

def mockName : String := "mock"

def kA : String := "a"

def regs : List (String × Ctor) := [(mockName, ctor0)]

def kws0 : List (String × PyVal) := [(kA, PyVal.num 42)]

/-- Witness for C10: with one keyword argument, the registered constructor
receives exactly one positional argument (the key); the value 42 is gone. -/
theorem c10_witness :
    create_provider regs mockName [] kws0
      = Except.ok (ctor0.run ([] ++ kws0.map (fun kv => PyVal.str kv.1))) ∧
    create_provider regs mockName [] kws0 = Except.ok (PyVal.num 1) :=
  ⟨(c10_create_provider_star_kws regs mockName ctor0 [] kws0 rfl).1, rfl⟩

end Reg
